import Mathlib

/-!
Verification development for the data-analyst agent subsystem of the
repository: a shallow embedding of `data_analyst_agent_app/metadata_utils.py`
(metadata catalog, question router, dashboard planner) and
`data_analyst_agent_app/agent.py` (`run_python_analysis` sandbox executor and
its inner `compose_dashboard` helper), together with theorems settling the
behavioural claims about those functions.

Modelling conventions:
* Python `None`-able values become `Option`; Python raise-sites become
  `Except PyError`; Python dictionaries used as keyed stores become
  association lists with insert-overwrite semantics.
* Python truthiness (`x or default`, `if not name:`) is embedded explicitly:
  empty strings and `0` are falsy (`pyOrStr`, `pyOrNat`, `pyTruthyS`).
* `str.lower()` is embedded as a character-wise ASCII case folding
  (`strLower`; the keyword and dtype vocabularies in the source are ASCII).
* Python substring tests (`word in text`) are embedded as a character-list
  infix check.
-/

/-- Python `a or b` for optional strings: a non-empty string on the left wins,
otherwise the right operand is returned unchanged (so `"" or None` is `None`
and `"" or ""` is `""`, as in CPython). -/
def pyOrStr (x y : Option String) : Option String :=
  match x with
  | some s => if s = "" then y else some s
  | none => y

/-- Python `a or d` for an optional integer `a` and default `d`: `None` and
`0` are falsy and yield the default. -/
def pyOrNat (x : Option Nat) (d : Nat) : Nat :=
  match x with
  | none => d
  | some v => if v = 0 then d else v

/-- Python truthiness of an optional string: `None` and `""` are falsy. -/
def pyTruthyS (x : Option String) : Bool :=
  match x with
  | none => false
  | some s => s != ""

/-- Python `str.lower()` (ASCII case folding, the scope used by the source),
implemented structurally over the character list so that proofs can evaluate
it (the core `String.toLower` recurses on byte positions, which the kernel
cannot reduce). -/
def strLower (s : String) : String :=
  String.mk (s.data.map Char.toLower)

/-- Python `str.split(sep)` for a one-character separator, implemented
structurally over the character list: `""` splits to `[""]`, and empty
segments around separators are kept, as in CPython. -/
def splitOnChar (sep : Char) : List Char → List (List Char)
  | [] => [[]]
  | x :: rest =>
      match splitOnChar sep rest with
      | [] => [[]]
      | g :: gs => if x = sep then [] :: g :: gs else (x :: g) :: gs

/-- Character-list infix test: does `needle` occur contiguously in the list? -/
def substrAux (needle : List Char) : List Char → Bool
  | [] => needle.isEmpty
  | c :: rest => needle.isPrefixOf (c :: rest) || substrAux needle rest

/-- Python `needle in haystack` on strings (contiguous substring test). -/
def substrOf (needle haystack : String) : Bool :=
  substrAux needle.data haystack.data

/-- Python `d[k] = v` on an association list: overwrite in place if the key is
present, append otherwise (CPython dicts keep the original slot on update). -/
def dictInsert {α : Type} (m : List (String × α)) (k : String) (v : α) :
    List (String × α) :=
  match m with
  | [] => [(k, v)]
  | (k', v') :: rest =>
      if k' = k then (k, v) :: rest else (k', v') :: dictInsert rest k v

/-- Python `d.get(k)` on an association list. -/
def dictLookup {α : Type} (m : List (String × α)) (k : String) : Option α :=
  match m with
  | [] => none
  | (k', v) :: rest => if k' = k then some v else dictLookup rest k

/-! ## metadata_utils.py: keyword vocabularies and identifier normalisation -/

/-- `_M365_KEYWORDS` from `metadata_utils.py`.  The source stores them in a
set and later sorts the matches; here the vocabulary is kept pre-sorted in the
lexicographic order `sorted` would produce, so filtering it yields exactly
Python's `sorted({word for word in _M365_KEYWORDS if word in text})`. -/
def M365_KEYWORDS : List String :=
  ["azure ad", "entra", "exchange", "graph", "intune", "licence", "license",
   "m365", "mailbox", "microsoft 365", "office 365", "onedrive", "outlook",
   "power platform", "sharepoint", "teams"]

/-- `_WORKFORCE_KEYWORDS` from `metadata_utils.py`, pre-sorted likewise. -/
def WORKFORCE_KEYWORDS : List String :=
  ["attrition", "employee", "employment", "headcount", "hiring", "hr",
   "human resources", "organisation", "organization", "people analytics",
   "recruitment", "talent", "turnover", "vacancies", "vacancy", "workforce"]

/-- `_NUMERIC_TYPES` from `metadata_utils.py` (a set in the source; only
membership is ever used, so a list is an equivalent embedding). -/
def NUMERIC_TYPES : List String :=
  ["int64", "int32", "integer", "float64", "float32", "float", "numeric",
   "bignumeric", "decimal", "number"]

/-- `_normalise_identifier`: strip backticks
(`value.replace("`", "")` deletes every backtick), keep the final
dot-separated segment (`split(".")` never yields an empty list, so the
default of `getLastD` is unreachable), lower-case. -/
def normalise_identifier (value : String) : String :=
  strLower (String.mk
    ((splitOnChar '.' (value.data.filter (fun c => c ≠ '`'))).getLastD []))

/-- `sorted({word for word in _M365_KEYWORDS if word in text})` for
`text = question.lower()` (see `M365_KEYWORDS` for why `filter` is the sorted
set comprehension). -/
def m365_matches (question : String) : List String :=
  M365_KEYWORDS.filter (fun w => substrOf w (strLower question))

/-- `sorted({word for word in _WORKFORCE_KEYWORDS if word in text})`. -/
def wf_matches (question : String) : List String :=
  WORKFORCE_KEYWORDS.filter (fun w => substrOf w (strLower question))

/-- `route_question_to_dataset` from `metadata_utils.py`: the four-branch
routing policy over keyword matches. -/
def route_question_to_dataset (question : String) : Option String × String :=
  if !(m365_matches question).isEmpty && (wf_matches question).isEmpty then
    (some "ms_graph",
      "Matched Microsoft 365 keywords: " ++
        String.intercalate ", " (m365_matches question) ++ ".")
  else if !(wf_matches question).isEmpty && (m365_matches question).isEmpty then
    (some "gt_wf",
      "Matched workforce keywords: " ++
        String.intercalate ", " (wf_matches question) ++ ".")
  else if !(m365_matches question).isEmpty && !(wf_matches question).isEmpty then
    (some "ms_graph",
      "Matched both keyword groups; prioritising Microsoft 365 context by default.")
  else
    (none, "No routing keywords detected; fall back to general reasoning.")

/-! ## metadata_utils.py: descriptor documents

The JSON descriptor documents are embedded structurally: only the fields the
source code reads are represented.  A JSON value sitting in a column slot can
be a mapping (the fields `name`/`column`/`type`/`data_type` are the ones the
code reads; a value of any other JSON type in those fields is not modelled
beyond its `str()` image), a bare string, or anything else. -/

/-- The fields of a column-metadata mapping that the source reads. -/
structure ColumnMeta where
  name : Option String
  column : Option String
  type : Option String
  data_type : Option String
deriving Repr, DecidableEq

/-- A JSON value in a column slot: a mapping, a bare string, or other. -/
inductive ColVal where
  | dict (meta : ColumnMeta)
  | str (s : String)
  | other
deriving Repr, DecidableEq

/-- The `columns` field of a table-info document: a mapping from column name
to metadata, a list of column entries, or anything else (including absent). -/
inductive ColumnsVal where
  | dict (entries : List (String × ColVal))
  | list (entries : List ColVal)
  | other
deriving Repr, DecidableEq

/-- The fields of a table-info mapping that the source reads. -/
structure TableInfo where
  table : Option String
  table_id : Option String
  name : Option String
  description : Option String
  summary : Option String
  columns : ColumnsVal
deriving Repr, DecidableEq

/-- A JSON value in a table slot: a table-info mapping or anything else. -/
inductive TableVal where
  | dict (info : TableInfo)
  | other
deriving Repr, DecidableEq

/-- The `tables` field of a dataset document. -/
inductive TablesVal where
  | dict (entries : List (String × TableVal))
  | list (entries : List TableVal)
  | other
deriving Repr, DecidableEq

/-- A parsed dataset descriptor document (the fields the source reads). -/
structure DatasetMeta where
  description : Option String
  summary : Option String
  tables : TablesVal
deriving Repr, DecidableEq

/-- `_load_all_metadata`: the catalog built from the parsed descriptor files.
The filesystem scan, JSON parsing (unparsable files are skipped) and the
`dataset`/`dataset_id`/file-stem key extraction happen before this point; the
embedding takes the resulting `(dataset_id, payload)` sequence as input and
keys each payload by its normalised identifier, later files overwriting
earlier ones exactly as the Python dict assignment does. -/
def load_all_metadata (files : List (String × DatasetMeta)) :
    List (String × DatasetMeta) :=
  files.foldl (fun m file => dictInsert m (normalise_identifier file.1) file.2) []

/-- `get_dataset_metadata`: normalised lookup into the catalog. -/
def get_dataset_metadata (files : List (String × DatasetMeta))
    (dataset_id : String) : Option DatasetMeta :=
  dictLookup (load_all_metadata files) (normalise_identifier dataset_id)

/-- `_iter_table_entries`: yield `(normalised name, info)` pairs from either a
keyed-mapping or a list-of-records `tables` value.  In the list shape the name
is `entry.get("table") or entry.get("table_id") or entry.get("name")` followed
by an `isinstance(name, str)` check, so a falsy `""` result is kept only when
it is the final operand of the `or` chain. -/
def iter_table_entries (dataset_meta : DatasetMeta) :
    List (String × TableInfo) :=
  match dataset_meta.tables with
  | TablesVal.dict entries =>
      entries.filterMap (fun e =>
        match e.2 with
        | TableVal.dict info => some (normalise_identifier e.1, info)
        | TableVal.other => none)
  | TablesVal.list entries =>
      entries.filterMap (fun e =>
        match e with
        | TableVal.dict info =>
            match pyOrStr info.table (pyOrStr info.table_id info.name) with
            | some n => some (normalise_identifier n, info)
            | none => none
        | TableVal.other => none)
  | TablesVal.other => []

/-- `get_table_metadata`: resolve the dataset, then linearly scan its table
entries for the normalised table identifier. -/
def get_table_metadata (files : List (String × DatasetMeta))
    (dataset_id table_id : String) : Option TableInfo :=
  match get_dataset_metadata files dataset_id with
  | none => none
  | some dataset_meta =>
      (iter_table_entries dataset_meta).lookup (normalise_identifier table_id)

/-! ## metadata_utils.py: create_dashboard_plan -/

/-- `str(column_meta.get("type") or column_meta.get("data_type") or "").lower()`. -/
def columnDtypeLower (meta : ColumnMeta) : String :=
  strLower ((pyOrStr meta.type meta.data_type).getD "")

/-- The dict-shape column classification loop of `create_dashboard_plan`:
entries whose metadata is not a mapping are skipped (`continue`); otherwise
the column name goes to the numeric list iff the lower-cased dtype is in
`_NUMERIC_TYPES`, and to the categorical list otherwise. -/
def classifyDictCols : List (String × ColVal) → List String × List String
  | [] => ([], [])
  | (n, ColVal.dict meta) :: rest =>
      let acc := classifyDictCols rest
      if NUMERIC_TYPES.contains (columnDtypeLower meta) then
        (n :: acc.1, acc.2)
      else
        (acc.1, n :: acc.2)
  | (_, ColVal.str _) :: rest => classifyDictCols rest
  | (_, ColVal.other) :: rest => classifyDictCols rest

/-- The list-shape column classification loop of `create_dashboard_plan`:
mapping entries use `meta.get("name") or meta.get("column")` and are skipped
when that is falsy (`if not name: continue`); bare strings are categorical;
anything else is skipped. -/
def classifyListCols : List ColVal → List String × List String
  | [] => ([], [])
  | ColVal.dict meta :: rest =>
      let acc := classifyListCols rest
      match pyOrStr meta.name meta.column with
      | some n =>
          if n = "" then acc
          else if NUMERIC_TYPES.contains (columnDtypeLower meta) then
            (n :: acc.1, acc.2)
          else
            (acc.1, n :: acc.2)
      | none => acc
  | ColVal.str s :: rest =>
      let acc := classifyListCols rest
      (acc.1, s :: acc.2)
  | ColVal.other :: rest => classifyListCols rest

/-- The column classification of `create_dashboard_plan` over the duck-typed
`columns` value: `(numeric_columns, categorical_columns)`. -/
def classify_columns : ColumnsVal → List String × List String
  | ColumnsVal.dict entries => classifyDictCols entries
  | ColumnsVal.list entries => classifyListCols entries
  | ColumnsVal.other => ([], [])

/-- One entry of the `recommended_tables` list built by
`create_dashboard_plan`. -/
structure TableEntry where
  table : String
  description : Option String
  numeric_columns : List String
  categorical_columns : List String
deriving Repr, DecidableEq

/-- Build one `recommended_tables` entry from an iterated table pair. -/
def mkTableEntry (n : String) (info : TableInfo) : TableEntry :=
  { table := n
    description := pyOrStr info.description info.summary
    numeric_columns := (classify_columns info.columns).1
    categorical_columns := (classify_columns info.columns).2 }

/-- The table-selection loop of `create_dashboard_plan`: honour the requested
(normalised) focus tables if any were given, otherwise stop after the fourth
appended entry (`if not requested and len(tables) >= 4: break`).  `count` is
the number of entries appended so far. -/
def selectTablesAux (requested : List String) :
    List (String × TableInfo) → Nat → List TableEntry
  | [], _ => []
  | (n, info) :: rest, count =>
      if !requested.isEmpty && !(requested.contains n) then
        selectTablesAux requested rest count
      else if requested.isEmpty && count + 1 ≥ 4 then
        [mkTableEntry n info]
      else
        mkTableEntry n info :: selectTablesAux requested rest (count + 1)

/-- One entry of the `visualisations` list of `create_dashboard_plan`. -/
structure Suggestion where
  table : String
  chart_type : String
  metric : String
  dimension : Option String
  description : String
deriving Repr, DecidableEq

/-- The per-table visualisation synthesis of `create_dashboard_plan`: a table
with no numeric column yields nothing; otherwise the metric is the first
numeric column, the dimension is the first categorical column (or `None`),
and the chart type / description depend on the Python truthiness of the
dimension. -/
def mkSuggestion (t : TableEntry) : Option Suggestion :=
  match t.numeric_columns with
  | [] => none
  | metric :: _ =>
      let dimension := t.categorical_columns.head?
      some
        { table := t.table
          chart_type := if pyTruthyS dimension then "bar" else "indicator"
          metric := metric
          dimension := dimension
          description :=
            if pyTruthyS dimension then
              "Aggregate " ++ metric ++ " by " ++ dimension.getD ""
            else
              "Track " ++ metric ++ " over time or as a KPI" }

/-- The result record of `create_dashboard_plan`. -/
structure DashboardPlan where
  objective : String
  question : Option String
  recommended_dataset : Option String
  routing_reason : String
  recommended_tables : List TableEntry
  visualisations : List Suggestion
deriving Repr, DecidableEq

/-- `create_dashboard_plan` from `metadata_utils.py`, parameterised by the
descriptor files behind the memoised catalog.  (`if dataset_meta:` in the
source also treats an empty payload dict as falsy; an empty payload has no
iterable table entries, so the selected tables are `[]` either way.) -/
def create_dashboard_plan (files : List (String × DatasetMeta))
    (objective : String) (question : Option String)
    (focus_tables : Option (List String)) : DashboardPlan :=
  let routed := route_question_to_dataset ((pyOrStr question (some objective)).getD "")
  let dataset_meta :=
    match routed.1 with
    | some d => get_dataset_metadata files d
    | none => none
  let tables :=
    match dataset_meta with
    | some meta =>
        selectTablesAux ((focus_tables.getD []).map normalise_identifier)
          (iter_table_entries meta) 0
    | none => []
  { objective := objective
    question := question
    recommended_dataset := routed.1
    routing_reason := routed.2
    recommended_tables := tables
    visualisations := tables.filterMap mkSuggestion }

/-! ## agent.py: compose_dashboard

`compose_dashboard` lives inside `run_python_analysis` and turns a list of
chart specifications into one multi-panel Plotly figure.  The external Plotly
machinery is modelled just far enough to observe the behaviour the source
controls: the attribute surface of `plotly.express` that
`getattr(px, chart_type, None)` consults consists of chart-making functions
(each modelled as producing a single trace tagged with the function name)
and non-chart attributes (modules, helper classes, constants, dunders) whose
invocation as a plotting function raises `TypeError`; the validation that
`make_subplots`/`add_trace` perform internally is external library behaviour
and is not modelled. -/

/-- A keyword-argument value passed to a plotting function: an opaque option
or a tabular frame (the `data_frame` argument). -/
inductive PVal where
  | s (v : String)
  | f (frame : List (String × List Int))
deriving Repr, DecidableEq

/-- `params.setdefault(key, value)`: insert at the end only when absent. -/
def setdefault (m : List (String × PVal)) (k : String) (v : PVal) :
    List (String × PVal) :=
  if m.any (fun e => e.1 = k) then m else m ++ [(k, v)]

/-- The `data` value of a chart specification: already a pandas frame, or a
frame-coercible structure handed to `pd.DataFrame` (coercion is modelled as
total; coercion failures raise inside pandas and are outside this model). -/
inductive ChartData where
  | frame (f : List (String × List Int))
  | raw (m : List (String × List Int))
deriving Repr, DecidableEq

/-- `data if isinstance(data, pd.DataFrame) else pd.DataFrame(data)`. -/
def toFrame : ChartData → List (String × List Int)
  | ChartData.frame f => f
  | ChartData.raw m => m

/-- One chart specification dictionary, with the keys `compose_dashboard`
reads.  `none` models an absent key. -/
structure ChartSpec where
  type : Option String
  data : Option ChartData
  params : List (String × PVal)
  row : Option Nat
  col : Option Nat
  title : Option String
deriving Repr, DecidableEq

/-- A single rendered trace of a `plotly.express` figure. -/
structure PxTrace where
  kind : String
  params : List (String × PVal)
deriving Repr, DecidableEq

/-- The figure returned by one `plotly.express` function: its traces and its
axis layout. -/
structure ChartFigure where
  data : List PxTrace
  xaxis : String
  yaxis : String
deriving Repr, DecidableEq

/-- Model of one `plotly.express` chart function: it renders the keyword
arguments into a one-trace figure tagged with the function's name. -/
def pxRender (fname : String) (params : List (String × PVal)) : ChartFigure :=
  { data := [{ kind := fname, params := params }]
    xaxis := "x:" ++ fname
    yaxis := "y:" ++ fname }

/-- The chart-making function attributes of `plotly.express`: the chart
types for which `getattr(px, chart_type, None)` yields a plotting
function. -/
def PX_CHART_TYPES : List String :=
  ["area", "bar", "bar_polar", "box", "choropleth", "choropleth_mapbox",
   "density_contour", "density_heatmap", "density_mapbox", "ecdf", "funnel",
   "funnel_area", "histogram", "icicle", "imshow", "line", "line_3d",
   "line_geo", "line_mapbox", "line_polar", "line_ternary",
   "parallel_categories", "parallel_coordinates", "pie", "scatter",
   "scatter_3d", "scatter_geo", "scatter_mapbox", "scatter_matrix",
   "scatter_polar", "scatter_ternary", "strip", "sunburst", "timeline",
   "treemap", "violin"]

/-- Non-chart attributes of the `plotly.express` module that
`getattr(px, chart_type, None)` still finds: data/colour namespaces, helper
classes and constants, private submodules and dunders — a representative
finite list of the module's non-chart attribute surface.  For these the
`plot_func is None` guard passes and the later call `plot_func(**params)`
raises `TypeError`. -/
def PX_NONCHART_ATTRS : List String :=
  ["Constant", "IdentityMap", "NO_COLOR", "Range", "colors", "data",
   "defaults", "get_trendline_results", "trendline_functions", "_chart_types",
   "_core", "_doc", "_imshow", "_special_inputs", "__all__", "__builtins__",
   "__cached__", "__doc__", "__file__", "__loader__", "__name__",
   "__package__", "__path__", "__spec__"]

/-- An attribute of the `plotly.express` module as `getattr` sees it: a
chart-making function, or a non-chart attribute unusable as one. -/
inductive PxAttr where
  | chartFn (f : List (String × PVal) → ChartFigure)
  | nonChart

/-- `getattr(px, chart_type, None)`: chart types resolve to their render
function, non-chart attributes are found but are not chart functions, and
any other name yields `None`. -/
def getPxAttr (chart_type : String) : Option PxAttr :=
  if PX_CHART_TYPES.contains chart_type then
    some (PxAttr.chartFn (pxRender chart_type))
  else if PX_NONCHART_ATTRS.contains chart_type then some PxAttr.nonChart
  else none

/-- A Python exception crossing the embedded fragment of `agent.py`: the
`raise ValueError` sites carry their exact message; `typeError` stands for
the `TypeError` the runtime raises when a non-chart attribute fetched from
`plotly.express` is invoked as a plotting function (its CPython message
depends on the attribute's runtime type and is not modelled). -/
inductive PyError where
  | valueError (msg : String)
  | typeError
deriving Repr, DecidableEq

/-- The `raise ValueError` for an empty chart list (the spec taxonomy's
`ConfigurationError` for this case). -/
def emptyChartsError : PyError :=
  PyError.valueError "Please provide at least one chart specification."

/-- The `raise ValueError` for a chart specification with no `data` value
(the spec taxonomy's `ConfigurationError` for a missing required field). -/
def missingDataError : PyError :=
  PyError.valueError "Each chart specification requires a 'data' value."

/-- The `raise ValueError` naming an unrecognised chart type (the spec
taxonomy's `UnsupportedChartType`). -/
def unknownChartTypeError (chart_type : String) : PyError :=
  PyError.valueError ("Unknown chart type '" ++ chart_type ++ "'.")

/-- One trace added to the composite figure at a grid cell. -/
structure PlacedTrace where
  trace : PxTrace
  row : Nat
  col : Nat
deriving Repr, DecidableEq

/-- One `update_xaxes`/`update_yaxes` copy onto a composite grid cell. -/
structure AxisUpdate where
  xaxis : String
  yaxis : String
  row : Nat
  col : Nat
deriving Repr, DecidableEq

/-- The composite figure built by `make_subplots` plus the per-chart trace
additions and axis copies. -/
structure SubplotsFigure where
  rows : Nat
  cols : Nat
  subplot_titles : Option (List (Option String))
  shared_x : Bool
  shared_y : Bool
  traces : List PlacedTrace
  axis_updates : List AxisUpdate
  title : Option String
deriving Repr, DecidableEq

/-- The `for index, chart in enumerate(charts)` loop of `compose_dashboard`:
resolve the chart type by `getattr` (default `"bar"`), raise the naming
`ValueError` when nothing was found, require a `data` value, invoke the
attribute (a `TypeError` for a non-chart attribute), and add the rendered
traces and axes at `row = chart.get("row") or index // cols + 1`,
`col = chart.get("col") or index % cols + 1`. -/
def composeCharts (resolved_cols : Nat) :
    Nat → List ChartSpec → Except PyError (List PlacedTrace × List AxisUpdate)
  | _, [] => Except.ok ([], [])
  | index, chart :: rest =>
      match getPxAttr (chart.type.getD "bar") with
      | none => Except.error (unknownChartTypeError (chart.type.getD "bar"))
      | some attr =>
          match chart.data with
          | none => Except.error missingDataError
          | some data =>
              let params :=
                setdefault chart.params "data_frame" (PVal.f (toFrame data))
              match attr with
              | PxAttr.nonChart => Except.error PyError.typeError
              | PxAttr.chartFn plot_func =>
                  let chart_figure := plot_func params
                  let row := pyOrNat chart.row (index / resolved_cols + 1)
                  let col := pyOrNat chart.col (index % resolved_cols + 1)
                  match composeCharts resolved_cols (index + 1) rest with
                  | Except.error e => Except.error e
                  | Except.ok (ts, axs) =>
                      Except.ok
                        (chart_figure.data.map
                            (fun t => { trace := t, row := row, col := col }) ++ ts,
                          { xaxis := chart_figure.xaxis, yaxis := chart_figure.yaxis,
                            row := row, col := col } :: axs)

/-- `compose_dashboard` from `agent.py`: reject an empty chart list, resolve
the grid (`rows or len(charts)`, `cols or 1`), run the chart loop, and apply
the overall title when truthy.  Subplot titles are passed only when at least
one chart supplies a truthy one. -/
def compose_dashboard (charts : List ChartSpec) (title : Option String)
    (rows cols : Option Nat) (shared_x shared_y : Bool) :
    Except PyError SubplotsFigure :=
  if charts.isEmpty then Except.error emptyChartsError
  else
    match composeCharts (pyOrNat cols 1) 0 charts with
    | Except.error e => Except.error e
    | Except.ok (ts, axs) =>
        Except.ok
          { rows := pyOrNat rows charts.length
            cols := pyOrNat cols 1
            subplot_titles :=
              if (charts.map (fun c => c.title)).any pyTruthyS then
                some (charts.map (fun c => c.title))
              else none
            shared_x := shared_x
            shared_y := shared_y
            traces := ts
            axis_updates := axs
            title := if pyTruthyS title then title else none }

/-! ## agent.py: run_python_analysis

The sandboxed `exec` of caller-supplied code is external behaviour; its
observable effects on the envelope are modelled by a `CodeRun` record: the
text printed to the redirected stdout (up to the failure point when the code
raises), the formatted traceback when an exception escaped the snippet
(`traceback.format_exc()`), the `result` binding left in the sandbox locals,
and the matplotlib figures registered in the global pyplot registry during
the run, in creation order.  (CPython exceptions outside the `Exception`
hierarchy, reachable only through object-introspection escapes, are not
modelled.)  The global pyplot figure registry is threaded through explicitly:
`run_python_analysis` maps the open-figure state before the call to the
call's outcome and the open-figure state after the call.  The `try`/`except`
covers only the `exec`; the post-exec figure harvest sits outside it, and
`figure.savefig` performs deferred rendering that can itself raise (e.g. a
malformed mathtext title is parsed only at draw time), so the outcome is an
`Except`: a raise during the harvest escapes the function. -/

/-- The `result` binding left in the sandbox locals. -/
inductive PyVal where
  | dataframe (columns : List String) (records : List (List (String × String)))
  | obj (text : String)
deriving Repr, DecidableEq

/-- The serialised `result` payload of the envelope. -/
inductive ResultPayload where
  | dataframe (columns : List String) (records : List (List (String × String)))
  | text (s : String)
deriving Repr, DecidableEq

/-- Serialisation of the `result` binding: DataFrames keep their columns in
source order and their records row-major; anything else becomes `repr`. -/
def serializeResult : PyVal → ResultPayload
  | PyVal.dataframe cols recs => ResultPayload.dataframe cols recs
  | PyVal.obj text => ResultPayload.text text

/-- An open matplotlib figure in the global pyplot registry.  Whether its
deferred rendering succeeds when `savefig` draws it is a property of the
figure, carried as `renders`. -/
structure PltFigure where
  payload : String
  renders : Bool
deriving Repr, DecidableEq

/-- The observable behaviour of `exec`-ing one code snippet. -/
structure CodeRun where
  stdout : String
  raised : Option String
  result : Option PyVal
  createdFigures : List PltFigure
deriving Repr, DecidableEq

/-- The base64 PNG encoding of a successfully rendered figure: external
rendering, modelled as a tagged injection on the figure payload. -/
def pngB64 (fig : PltFigure) : String :=
  "png-base64:" ++ fig.payload

/-- `figure.savefig(buffer, format="png", bbox_inches="tight")` followed by
base64 encoding: yields the encoding when the figure renders, and raises
when its deferred rendering fails (matplotlib surfaces e.g. mathtext parse
errors as `ValueError` at draw time; the exact message is external and
abstracted over the figure payload). -/
def savefigPngB64 (fig : PltFigure) : Except PyError String :=
  if fig.renders then Except.ok (pngB64 fig)
  else Except.error (PyError.valueError ("figure rendering failed: " ++ fig.payload))

/-- The `for figure_number in plt.get_fignums()` harvest loop: encode each
open figure in creation order; the first `savefig` failure propagates,
discarding the encodings made so far. -/
def harvestFigures : List PltFigure → Except PyError (List String)
  | [] => Except.ok []
  | fig :: rest =>
      match savefigPngB64 fig with
      | Except.error e => Except.error e
      | Except.ok encoded =>
          match harvestFigures rest with
          | Except.error e => Except.error e
          | Except.ok rest_encoded => Except.ok (encoded :: rest_encoded)

/-- The result envelope of `run_python_analysis`. -/
structure ExecPayload where
  stdout : String
  result : Option ResultPayload
  figures : Option (List String)
  error : Option String
deriving Repr, DecidableEq

/-- `run_python_analysis` from `agent.py`.  Figures created by the snippet
join the global registry during `exec`; if the snippet raised, the handler
returns only the captured stdout and the formatted traceback (leaving the
registry untouched).  Otherwise the harvest — outside the `try`/`except` —
renders every open figure in creation order: a `savefig` failure escapes the
function with the registry still open; on full success `plt.close("all")`
empties the registry and the payload gains the serialised `result` binding
and the figure list when non-empty. -/
def run_python_analysis (run : CodeRun) (openFigures : List PltFigure) :
    Except PyError ExecPayload × List PltFigure :=
  match run.raised with
  | some tb =>
      (Except.ok
          { stdout := run.stdout, result := none, figures := none,
            error := some tb },
        openFigures ++ run.createdFigures)
  | none =>
      match harvestFigures (openFigures ++ run.createdFigures) with
      | Except.error e => (Except.error e, openFigures ++ run.createdFigures)
      | Except.ok figures =>
          (Except.ok
              { stdout := run.stdout
                result := run.result.map serializeResult
                figures := if figures.isEmpty then none else some figures
                error := none },
            [])

/-! ## Claim C3: the routing policy -/

/-- C3: for every question string, `route_question_to_dataset` returns a
decision (it is a total function) following the four-branch policy on
lower-cased substring keyword matches: M365-only matches route to
`ms_graph` with the matched keywords listed in the reason; workforce-only
matches route to `gt_wf`; both route to `ms_graph` with a reason stating both
matched and that Microsoft 365 is prioritised by default; neither yields no
dataset and the fall-back reason. -/
theorem route_policy (q : String) :
    (m365_matches q ≠ [] → wf_matches q = [] →
      route_question_to_dataset q =
        (some "ms_graph",
          "Matched Microsoft 365 keywords: " ++
            String.intercalate ", " (m365_matches q) ++ ".")) ∧
    (wf_matches q ≠ [] → m365_matches q = [] →
      route_question_to_dataset q =
        (some "gt_wf",
          "Matched workforce keywords: " ++
            String.intercalate ", " (wf_matches q) ++ ".")) ∧
    (m365_matches q ≠ [] → wf_matches q ≠ [] →
      route_question_to_dataset q =
        (some "ms_graph",
          "Matched both keyword groups; prioritising Microsoft 365 context by default.")) ∧
    (m365_matches q = [] → wf_matches q = [] →
      route_question_to_dataset q =
        (none, "No routing keywords detected; fall back to general reasoning.")) := by
  refine ⟨?_, ?_, ?_, ?_⟩
  · intro hA hB
    obtain ⟨a, as, ha⟩ := List.exists_cons_of_ne_nil hA
    simp [route_question_to_dataset, ha, hB]
  · intro hB hA
    obtain ⟨b, bs, hb⟩ := List.exists_cons_of_ne_nil hB
    simp [route_question_to_dataset, hb, hA]
  · intro hA hB
    obtain ⟨a, as, ha⟩ := List.exists_cons_of_ne_nil hA
    obtain ⟨b, bs, hb⟩ := List.exists_cons_of_ne_nil hB
    simp [route_question_to_dataset, ha, hb]
  · intro hA hB
    simp [route_question_to_dataset, hA, hB]

/-- Witness for C3: the four policy branches at the spec's four example
questions, obtained by applying `route_policy`. -/
theorem route_policy_witness :
    route_question_to_dataset "teams outlook licensing question" =
      (some "ms_graph", "Matched Microsoft 365 keywords: outlook, teams.") ∧
    route_question_to_dataset "attrition and headcount trends" =
      (some "gt_wf", "Matched workforce keywords: attrition, headcount.") ∧
    route_question_to_dataset "teams attrition" =
      (some "ms_graph",
        "Matched both keyword groups; prioritising Microsoft 365 context by default.") ∧
    route_question_to_dataset "what is the weather" =
      (none, "No routing keywords detected; fall back to general reasoning.") := by
  refine ⟨?_, ?_, ?_, ?_⟩
  · rw [(route_policy "teams outlook licensing question").1 (by decide) (by decide)]
    decide
  · rw [(route_policy "attrition and headcount trends").2.1 (by decide) (by decide)]
    decide
  · exact (route_policy "teams attrition").2.2.1 (by decide) (by decide)
  · exact (route_policy "what is the weather").2.2.2 (by decide) (by decide)

/-! ## Claim C4: normalised dataset lookup round-trips -/

/-- C4: any descriptor stored in the loaded catalog under its normalised
dataset identifier is resolved by `get_dataset_metadata` from every
identifier string with the same normalisation — lookups compare normalised
forms only, so casing and project/dataset qualification are irrelevant. -/
theorem dataset_lookup_roundtrip (files : List (String × DatasetMeta))
    (d s : String) (payload : DatasetMeta)
    (hload : dictLookup (load_all_metadata files) (normalise_identifier d) =
      some payload)
    (hnorm : normalise_identifier s = normalise_identifier d) :
    get_dataset_metadata files s = some payload := by
  unfold get_dataset_metadata
  rw [hnorm]
  exact hload

/-- A concrete descriptor payload for the C4 witness. -/
def salesMeta : DatasetMeta :=
  { description := some "Sales figures", summary := none,
    tables := TablesVal.other }

/-- Witness for C4: loading `dataset="Sales.Data"` makes both
`get_dataset_metadata("sales.data")` and `get_dataset_metadata("SALES.DATA")`
resolve to the stored descriptor. -/
theorem dataset_lookup_roundtrip_witness :
    get_dataset_metadata [("Sales.Data", salesMeta)] "sales.data" =
      some salesMeta ∧
    get_dataset_metadata [("Sales.Data", salesMeta)] "SALES.DATA" =
      some salesMeta :=
  ⟨dataset_lookup_roundtrip [("Sales.Data", salesMeta)] "Sales.Data"
      "sales.data" salesMeta rfl rfl,
    dataset_lookup_roundtrip [("Sales.Data", salesMeta)] "Sales.Data"
      "SALES.DATA" salesMeta rfl rfl⟩

/-! ## Claim C5: compose_dashboard rejects an empty chart list -/

/-- C5: `compose_dashboard` called with an empty chart list fails with the
empty-chart-list `ValueError` (the spec taxonomy's `ConfigurationError`) for
every combination of the optional arguments — it never silently produces an
empty composite figure. -/
theorem compose_empty_charts (title : Option String) (rows cols : Option Nat)
    (shared_x shared_y : Bool) :
    compose_dashboard [] title rows cols shared_x shared_y =
      Except.error emptyChartsError := rfl

/-! ## Claim C1: the sandbox executor and its boundary -/

/-- A successful snippet whose single created figure fails to render: the
observable behaviour of e.g. `execute("plt.plot([1,2]); plt.title('...')")`
with a malformed mathtext title, which `exec` accepts but `savefig` chokes
on at draw time. -/
def renderFailRun : CodeRun :=
  { stdout := "", raised := none, result := none,
    createdFigures := [{ payload := "mathtext-title", renders := false }] }

/-- Counterexample to C1: the figure harvest runs outside the `try`/`except`,
so for a snippet whose execution succeeds but whose open figure fails to
render, `figure.savefig` raises and the exception escapes
`run_python_analysis` — no result envelope is returned to the caller. -/
theorem savefig_escape_counterexample :
    renderFailRun.raised = none ∧
    (run_python_analysis renderFailRun []).1 =
      Except.error (PyError.valueError
        "figure rendering failed: mathtext-title") :=
  ⟨rfl, rfl⟩

/-- C1 amended: whenever the executed code itself fails,
`run_python_analysis` returns a result envelope and no exception propagates:
the formatted traceback is placed in `error`, the stdout captured up to the
failure point is returned, `result` and `figures` are omitted, and the
pyplot registry is left untouched.  Only the post-exec figure harvest of a
successful execution — which sits outside the `try`/`except` — can raise
across the boundary. -/
theorem sandbox_execute_captures_failures (run : CodeRun)
    (openFigures : List PltFigure) (tb : String)
    (h : run.raised = some tb) :
    run_python_analysis run openFigures =
      (Except.ok
          { stdout := run.stdout, result := none, figures := none,
            error := some tb },
        openFigures ++ run.createdFigures) := by
  simp [run_python_analysis, h]

/-- A snippet that prints, then divides by zero: the observable behaviour of
`execute("print('partial'); x = 1/0")`. -/
def failRun : CodeRun :=
  { stdout := "partial\n",
    raised := some "Traceback (most recent call last): ZeroDivisionError: division by zero",
    result := none, createdFigures := [] }

/-- Witness for the amended C1: the failing snippet's envelope is returned
(no escape) and carries the stdout produced before the fault and the
formatted error, with `result` and `figures` omitted. -/
theorem sandbox_execute_captures_failures_witness :
    run_python_analysis failRun [] =
      (Except.ok
          { stdout := "partial\n", result := none, figures := none,
            error := some "Traceback (most recent call last): ZeroDivisionError: division by zero" },
        []) :=
  sandbox_execute_captures_failures failRun [] _ rfl

/-! ## Claim C2: figure state across calls

The claim asserts that figures are closed after every call, whether the
executed code succeeds or fails.  The source reaches `plt.close("all")` only
at the end of a fully successful harvest: the exception handler returns
early without touching the registry, and a `savefig` failure mid-harvest
aborts before the close — in both cases open figures leak into the next
call. -/

/-- The figure left open by the failing snippet. -/
def leakedFigure : PltFigure := { payload := "leaked-figure", renders := true }

/-- A snippet that creates one figure and then raises. -/
def failFigRun : CodeRun :=
  { stdout := "",
    raised := some "Traceback (most recent call last): RuntimeError: boom",
    result := none, createdFigures := [leakedFigure] }

/-- The observable behaviour of a subsequent unrelated `execute("pass")`. -/
def passRun : CodeRun :=
  { stdout := "", raised := none, result := none, createdFigures := [] }

/-- Counterexample to C2: after a call whose code created a figure and then
failed, a subsequent `execute("pass")` — which creates no figures of its
own — returns the earlier call's figure, so not all open figures were closed
before the first call returned and the second call's figures were not all
created during the second call. -/
theorem figure_leak_counterexample :
    passRun.createdFigures = [] ∧
    ((run_python_analysis passRun (run_python_analysis failFigRun []).2).1).map
        (fun p => p.figures) =
      Except.ok (some [pngB64 leakedFigure]) :=
  ⟨rfl, rfl⟩

/-- Every figure of the list renders successfully under `savefig`. -/
def allRender (figs : List PltFigure) : Bool :=
  figs.all (fun f => f.renders)

/-- A harvest over figures that all render yields their encodings in
creation order. -/
theorem harvestFigures_all_render (figs : List PltFigure)
    (h : allRender figs = true) :
    harvestFigures figs = Except.ok (figs.map pngB64) := by
  induction figs with
  | nil => rfl
  | cons f rest ih =>
      simp only [allRender, List.all_cons, Bool.and_eq_true] at h
      simp [harvestFigures, savefigPngB64, h.1,
        ih (by simpa [allRender] using h.2)]

/-- C2 amended: after every call whose executed code succeeds and whose open
figures all render successfully, all open plotting figures are closed before
the call returns (the registry is emptied); hence for two consecutive such
calls the figures returned by the second call are exactly the ones created
during the second call.  When the executed code fails — or a figure's
rendering fails mid-harvest, which aborts before `plt.close("all")` — open
figures are not closed and may leak into a later call. -/
theorem figures_closed_on_success (r1 r2 : CodeRun) (st : List PltFigure)
    (h1 : r1.raised = none)
    (hr1 : allRender (st ++ r1.createdFigures) = true)
    (h2 : r2.raised = none)
    (hr2 : allRender r2.createdFigures = true) :
    (run_python_analysis r1 st).2 = [] ∧
    ((run_python_analysis r2 (run_python_analysis r1 st).2).1).map
        (fun p => p.figures) =
      Except.ok (if r2.createdFigures.isEmpty then none
        else some (r2.createdFigures.map pngB64)) := by
  have hh1 := harvestFigures_all_render _ hr1
  constructor
  · simp [run_python_analysis, h1, hh1]
  · cases hc : r2.createdFigures with
    | nil =>
        simp [run_python_analysis, h1, h2, hh1, hc, harvestFigures,
          Except.map]
    | cons f rest =>
        have hh2 := harvestFigures_all_render _ hr2
        rw [hc] at hh2
        simp [run_python_analysis, h1, h2, hh1, hc, hh2, Except.map]

/-- A successful snippet that creates two renderable figures. -/
def okFigRun : CodeRun :=
  { stdout := "", raised := none, result := none,
    createdFigures := [{ payload := "figure-a", renders := true },
      { payload := "figure-b", renders := true }] }

/-- A successful snippet that creates one renderable figure. -/
def okFigRun2 : CodeRun :=
  { stdout := "", raised := none, result := none,
    createdFigures := [{ payload := "figure-c", renders := true }] }

/-- A stale renderable figure predating the witness calls. -/
def staleFigure : PltFigure := { payload := "stale", renders := true }

/-- Witness for the amended C2: a successful, fully-rendering call empties
the figure state, and the next such call returns exactly its own figures. -/
theorem figures_closed_on_success_witness :
    (run_python_analysis okFigRun [staleFigure]).2 = [] ∧
    ((run_python_analysis okFigRun2
          (run_python_analysis okFigRun [staleFigure]).2).1).map
        (fun p => p.figures) =
      Except.ok (if okFigRun2.createdFigures.isEmpty then none
        else some (okFigRun2.createdFigures.map pngB64)) :=
  figures_closed_on_success okFigRun okFigRun2 [staleFigure] rfl rfl rfl rfl

/-! ## Claim C6: grid defaults and placement -/

/-- The placement the amended claim predicts for each chart: an explicit
non-zero `row`/`col` wins, and otherwise (absent, or an explicit Python-falsy
`0`) chart `i` is placed row-major at `(i / cols + 1, i % cols + 1)`,
1-based.  `idx` is the enumeration offset. -/
def placementList (resolved_cols : Nat) : Nat → List ChartSpec → List (Nat × Nat)
  | _, [] => []
  | idx, c :: rest =>
      (pyOrNat c.row (idx / resolved_cols + 1),
        pyOrNat c.col (idx % resolved_cols + 1)) ::
        placementList resolved_cols (idx + 1) rest

/-- A `getattr` hit that is a chart function is the render function of that
chart type. -/
theorem getPxAttr_chartFn_eq (chart_type : String)
    (f : List (String × PVal) → ChartFigure)
    (h : getPxAttr chart_type = some (PxAttr.chartFn f)) :
    f = pxRender chart_type := by
  unfold getPxAttr at h
  by_cases hmem : PX_CHART_TYPES.contains chart_type
  · rw [if_pos hmem] at h
    injection h with h1
    injection h1 with h2
    exact h2.symm
  · rw [if_neg hmem] at h
    by_cases hnon : PX_NONCHART_ATTRS.contains chart_type
    · rw [if_pos hnon] at h
      injection h with h1
      cases h1
    · rw [if_neg hnon] at h
      cases h

/-- Each successful run of the chart loop places one trace per chart, at the
placements `placementList` predicts. -/
theorem composeCharts_ok_placements (resolved_cols : Nat) :
    ∀ (charts : List ChartSpec) (idx : Nat) (ts : List PlacedTrace)
      (axs : List AxisUpdate),
      composeCharts resolved_cols idx charts = Except.ok (ts, axs) →
      ts.map (fun pt => (pt.row, pt.col)) = placementList resolved_cols idx charts := by
  intro charts
  induction charts with
  | nil =>
      intro idx ts axs h
      simp only [composeCharts] at h
      cases h
      rfl
  | cons c rest ih =>
      intro idx ts axs h
      simp only [composeCharts] at h
      cases hpx : getPxAttr (c.type.getD "bar") with
      | none => rw [hpx] at h; cases h
      | some attr =>
          rw [hpx] at h
          cases hd : c.data with
          | none => rw [hd] at h; cases h
          | some d =>
              rw [hd] at h
              cases attr with
              | nonChart => cases h
              | chartFn f =>
                  cases hrec : composeCharts resolved_cols (idx + 1) rest with
                  | error e => rw [hrec] at h; cases h
                  | ok p =>
                      obtain ⟨ts', axs'⟩ := p
                      rw [hrec] at h
                      cases h
                      have hf : f = pxRender (c.type.getD "bar") :=
                        getPxAttr_chartFn_eq _ f hpx
                      subst hf
                      simp only [pxRender, List.map_cons, List.map_nil,
                        List.singleton_append, List.map, placementList]
                      exact congrArg _ (ih (idx + 1) ts' axs' hrec)

/-- A small frame used by the C6 charts. -/
def c6Frame : List (String × List Int) :=
  [("month", [1, 2, 3]), ("sales", [10, 20, 15])]

/-- A chart specification carrying an explicit `row` of `0`. -/
def c6ZeroRowChart : ChartSpec :=
  { type := some "bar", data := some (ChartData.raw c6Frame), params := [],
    row := some 0, col := none, title := none }

/-- Counterexample to C6: the claim says an explicit `row`/`col` on the spec
wins over the default placement, but `chart.get("row") or ...` treats an
explicit `0` as falsy: this chart carries `row = 0` yet is placed at the
default `(1, 1)`. -/
theorem explicit_zero_row_loses_counterexample :
    c6ZeroRowChart.row = some 0 ∧
    (compose_dashboard [c6ZeroRowChart] none none none false false).map
        (fun f => f.traces.map (fun pt => (pt.row, pt.col))) =
      Except.ok [(1, 1)] :=
  ⟨rfl, rfl⟩

/-- C6 amended: when `rows`/`cols` are unspecified (or Python-falsy `0`) the
grid defaults to `rows = len(charts)`, `cols = 1`; a chart at zero-based
index `i` is placed at the explicit `row`/`col` when that value is present
and non-zero, and otherwise row-major at `row = i // cols + 1`,
`col = i % cols + 1` (1-based) — an explicit `0` is treated as unset. -/
theorem compose_grid_and_placement (charts : List ChartSpec)
    (title : Option String) (rows cols : Option Nat) (shared_x shared_y : Bool)
    (fig : SubplotsFigure)
    (h : compose_dashboard charts title rows cols shared_x shared_y =
      Except.ok fig) :
    fig.rows = pyOrNat rows charts.length ∧
    fig.cols = pyOrNat cols 1 ∧
    fig.traces.map (fun pt => (pt.row, pt.col)) =
      placementList (pyOrNat cols 1) 0 charts := by
  unfold compose_dashboard at h
  by_cases hc : charts.isEmpty
  · rw [if_pos hc] at h
    cases h
  · rw [if_neg hc] at h
    cases hrec : composeCharts (pyOrNat cols 1) 0 charts with
    | error e => rw [hrec] at h; cases h
    | ok p =>
        obtain ⟨ts, axs⟩ := p
        rw [hrec] at h
        cases h
        exact ⟨rfl, rfl,
          composeCharts_ok_placements (pyOrNat cols 1) charts 0 ts axs hrec⟩

/-- A chart with an explicit (non-zero) position. -/
def c6ExplicitChart : ChartSpec :=
  { type := some "line", data := some (ChartData.frame c6Frame), params := [],
    row := some 5, col := some 2, title := none }

/-- A chart with no explicit position (and no explicit type). -/
def c6DefaultChart : ChartSpec :=
  { type := none, data := some (ChartData.raw c6Frame), params := [],
    row := none, col := none, title := none }

/-- The chart list of the C6 witness. -/
def c6Charts : List ChartSpec := [c6ExplicitChart, c6DefaultChart]

/-- The composite figure `compose_dashboard` produces for `c6Charts` with
`cols = 2`. -/
def c6Figure : SubplotsFigure :=
  { rows := 2, cols := 2, subplot_titles := none, shared_x := false,
    shared_y := false,
    traces :=
      [{ trace := { kind := "line",
                    params := [("data_frame", PVal.f c6Frame)] },
         row := 5, col := 2 },
       { trace := { kind := "bar",
                    params := [("data_frame", PVal.f c6Frame)] },
         row := 1, col := 2 }],
    axis_updates :=
      [{ xaxis := "x:line", yaxis := "y:line", row := 5, col := 2 },
       { xaxis := "x:bar", yaxis := "y:bar", row := 1, col := 2 }],
    title := none }

/-- Witness for the amended C6: a two-chart composition with `cols = 2`
defaults `rows` to the chart count, honours the explicit `(5, 2)` placement
of the first chart, and places the second chart row-major at `(1, 2)`. -/
theorem compose_grid_and_placement_witness :
    c6Figure.rows = pyOrNat none c6Charts.length ∧
    c6Figure.cols = pyOrNat (some 2) 1 ∧
    c6Figure.traces.map (fun pt => (pt.row, pt.col)) =
      placementList (pyOrNat (some 2) 1) 0 c6Charts :=
  compose_grid_and_placement c6Charts none none (some 2) false false c6Figure
    rfl

/-! ## Claim C7: chart-type resolution against the px attribute surface -/

/-- `getattr` found a chart-making function. -/
def isChartFn : Option PxAttr → Bool
  | some (PxAttr.chartFn _) => true
  | some PxAttr.nonChart => false
  | none => false

/-- A chart whose processing in the loop succeeds: its (defaulted) type
resolves to a chart function and it carries a `data` value. -/
def chartOk (c : ChartSpec) : Bool :=
  isChartFn (getPxAttr (c.type.getD "bar")) && c.data.isSome

/-- If every chart before position `i` processes successfully and the chart
at `i` has a type that is no attribute of `plotly.express` at all, the loop
fails with the `ValueError` naming that type. -/
theorem composeCharts_unknown_type (resolved_cols : Nat) :
    ∀ (charts : List ChartSpec) (idx i : Nat) (c : ChartSpec),
      charts.get? i = some c →
      (∀ j, j < i → ∀ cj, charts.get? j = some cj → chartOk cj = true) →
      getPxAttr (c.type.getD "bar") = none →
      composeCharts resolved_cols idx charts =
        Except.error (unknownChartTypeError (c.type.getD "bar")) := by
  intro charts
  induction charts with
  | nil =>
      intro idx i c hget
      simp at hget
  | cons hd rest ih =>
      intro idx i c hget hprev hbad
      cases i with
      | zero =>
          simp only [List.get?] at hget
          cases hget
          simp [composeCharts, hbad]
      | succ i' =>
          have hok : chartOk hd = true := hprev 0 (Nat.succ_pos i') hd rfl
          simp only [chartOk, Bool.and_eq_true] at hok
          obtain ⟨h1, h2⟩ := hok
          obtain ⟨d, hd2⟩ := Option.isSome_iff_exists.mp h2
          have hrest := ih (idx + 1) i' c (by simpa using hget)
            (fun j hj cj hcj =>
              hprev (j + 1) (Nat.succ_lt_succ hj) cj (by simpa using hcj))
            hbad
          cases hf : getPxAttr (hd.type.getD "bar") with
          | none => rw [hf] at h1; simp [isChartFn] at h1
          | some attr =>
              cases attr with
              | nonChart => rw [hf] at h1; simp [isChartFn] at h1
              | chartFn f => simp [composeCharts, hf, hd2, hrest]

/-- Same premise, but the chart at `i` names a non-chart attribute and has a
`data` value (so the loop reaches the call): the loop fails with the
`TypeError` from invoking that attribute. -/
theorem composeCharts_noncallable (resolved_cols : Nat) :
    ∀ (charts : List ChartSpec) (idx i : Nat) (c : ChartSpec),
      charts.get? i = some c →
      (∀ j, j < i → ∀ cj, charts.get? j = some cj → chartOk cj = true) →
      getPxAttr (c.type.getD "bar") = some PxAttr.nonChart →
      c.data.isSome = true →
      composeCharts resolved_cols idx charts =
        Except.error PyError.typeError := by
  intro charts
  induction charts with
  | nil =>
      intro idx i c hget
      simp at hget
  | cons hd rest ih =>
      intro idx i c hget hprev hbad hdata
      cases i with
      | zero =>
          simp only [List.get?] at hget
          cases hget
          obtain ⟨d, hd2⟩ := Option.isSome_iff_exists.mp hdata
          simp [composeCharts, hbad, hd2]
      | succ i' =>
          have hok : chartOk hd = true := hprev 0 (Nat.succ_pos i') hd rfl
          simp only [chartOk, Bool.and_eq_true] at hok
          obtain ⟨h1, h2⟩ := hok
          obtain ⟨d, hd2⟩ := Option.isSome_iff_exists.mp h2
          have hrest := ih (idx + 1) i' c (by simpa using hget)
            (fun j hj cj hcj =>
              hprev (j + 1) (Nat.succ_lt_succ hj) cj (by simpa using hcj))
            hbad hdata
          cases hf : getPxAttr (hd.type.getD "bar") with
          | none => rw [hf] at h1; simp [isChartFn] at h1
          | some attr =>
              cases attr with
              | nonChart => rw [hf] at h1; simp [isChartFn] at h1
              | chartFn f => simp [composeCharts, hf, hd2, hrest]

/-- C7 amended: each chart's `type` is resolved by `getattr` over the whole
`plotly.express` attribute surface, not a closed registry of chart kinds.
When the first chart that fails to process has a type that is no attribute
at all, the call fails with the `ValueError` naming the unrecognised type
(the spec taxonomy's `UnsupportedChartType`); when that type instead names a
non-chart attribute, the `is None` guard passes and the call fails with the
`TypeError` from invoking the attribute, without naming the type. -/
theorem compose_unknown_chart_type (charts : List ChartSpec)
    (title : Option String) (rows cols : Option Nat) (shared_x shared_y : Bool)
    (i : Nat) (c : ChartSpec)
    (hget : charts.get? i = some c)
    (hprev : ∀ j, j < i → ∀ cj, charts.get? j = some cj → chartOk cj = true) :
    (getPxAttr (c.type.getD "bar") = none →
      compose_dashboard charts title rows cols shared_x shared_y =
        Except.error (unknownChartTypeError (c.type.getD "bar"))) ∧
    (getPxAttr (c.type.getD "bar") = some PxAttr.nonChart →
      c.data.isSome = true →
      compose_dashboard charts title rows cols shared_x shared_y =
        Except.error PyError.typeError) := by
  have hne : charts.isEmpty = false := by
    cases charts with
    | nil => simp at hget
    | cons hd rest => rfl
  constructor
  · intro hbad
    unfold compose_dashboard
    rw [hne]
    simp only [Bool.false_eq_true, if_false]
    rw [composeCharts_unknown_type (pyOrNat cols 1) charts 0 i c hget hprev
      hbad]
  · intro hbad hdata
    unfold compose_dashboard
    rw [hne]
    simp only [Bool.false_eq_true, if_false]
    rw [composeCharts_noncallable (pyOrNat cols 1) charts 0 i c hget hprev
      hbad hdata]

/-- A small frame used by the C7 charts. -/
def c7Frame : List (String × List Int) :=
  [("category", [1, 2]), ("total", [3, 4])]

/-- A processable chart (type `scatter`, data present). -/
def c7OkChart : ChartSpec :=
  { type := some "scatter", data := some (ChartData.frame c7Frame),
    params := [], row := none, col := none, title := none }

/-- A chart whose type `sparkline` is no attribute of `plotly.express`. -/
def c7BadChart : ChartSpec :=
  { type := some "sparkline", data := some (ChartData.frame c7Frame),
    params := [], row := none, col := none, title := none }

/-- A chart whose type names `plotly.express.colors` — a genuine attribute
of the module that is not a chart function. -/
def c7ColorsChart : ChartSpec :=
  { type := some "colors", data := some (ChartData.frame c7Frame),
    params := [], row := none, col := none, title := none }

/-- Counterexample to C7: `colors` is not a supported chart kind, yet the
composition does not fail with the `ValueError` naming it — `getattr` finds
the module attribute, the `is None` guard passes, and invoking it raises a
`TypeError` instead. -/
theorem unknown_type_typeerror_counterexample :
    PX_CHART_TYPES.contains "colors" = false ∧
    compose_dashboard [c7ColorsChart] none none none false false =
      Except.error PyError.typeError ∧
    PyError.typeError ≠ unknownChartTypeError "colors" :=
  ⟨rfl, rfl, by decide⟩

/-- Witness for the amended C7, exercising both failure modes at concrete
inputs: a `sparkline` chart (no such attribute) is rejected with the naming
`ValueError`, and a `colors` chart (non-chart attribute) fails with the
`TypeError` from the call. -/
theorem compose_unknown_chart_type_witness :
    compose_dashboard [c7OkChart, c7BadChart] none none none false false =
      Except.error (unknownChartTypeError "sparkline") ∧
    compose_dashboard [c7OkChart, c7ColorsChart] none none none false false =
      Except.error PyError.typeError := by
  have hprev1 : ∀ j, j < 1 → ∀ cj,
      [c7OkChart, c7BadChart].get? j = some cj → chartOk cj = true := by
    intro j hj cj hcj
    cases j with
    | zero =>
        simp only [List.get?] at hcj
        cases hcj
        decide
    | succ n => omega
  have hprev2 : ∀ j, j < 1 → ∀ cj,
      [c7OkChart, c7ColorsChart].get? j = some cj → chartOk cj = true := by
    intro j hj cj hcj
    cases j with
    | zero =>
        simp only [List.get?] at hcj
        cases hcj
        decide
    | succ n => omega
  exact ⟨(compose_unknown_chart_type [c7OkChart, c7BadChart] none none none
      false false 1 c7BadChart rfl hprev1).1 rfl,
    (compose_unknown_chart_type [c7OkChart, c7ColorsChart] none none none
      false false 1 c7ColorsChart rfl hprev2).2 rfl rfl⟩

/-! ## Claim C10: an absent chart type defaults to "bar" -/

/-- Replace an absent `type` key by the explicit default `"bar"` (charts that
already carry a type are unchanged). -/
def fillDefaultType (c : ChartSpec) : ChartSpec :=
  { c with type := some (c.type.getD "bar") }

/-- The chart loop cannot distinguish an absent `type` from an explicit
`"bar"`. -/
theorem composeCharts_fillDefaultType (resolved_cols : Nat) :
    ∀ (charts : List ChartSpec) (idx : Nat),
      composeCharts resolved_cols idx (charts.map fillDefaultType) =
        composeCharts resolved_cols idx charts := by
  intro charts
  induction charts with
  | nil => intro idx; rfl
  | cons c rest ih =>
      intro idx
      show composeCharts resolved_cols idx
          (fillDefaultType c :: rest.map fillDefaultType) = _
      unfold composeCharts
      rw [ih (idx + 1)]
      rfl

/-- C10: a chart specification with no `type` key is not rejected — it is
rendered with the default chart kind `"bar"`, so replacing every absent
`type` by an explicit `"bar"` leaves the result of `compose_dashboard`
unchanged on every chart list and option combination. -/
theorem compose_default_type_is_bar (charts : List ChartSpec)
    (title : Option String) (rows cols : Option Nat)
    (shared_x shared_y : Bool) :
    compose_dashboard (charts.map fillDefaultType) title rows cols
        shared_x shared_y =
      compose_dashboard charts title rows cols shared_x shared_y := by
  have hTitles : (charts.map fillDefaultType).map (fun c => c.title) =
      charts.map (fun c => c.title) := by
    rw [List.map_map]; rfl
  cases charts with
  | nil => rfl
  | cons c rest =>
      unfold compose_dashboard
      rw [composeCharts_fillDefaultType]
      rw [show ((c :: rest).map fillDefaultType).length = (c :: rest).length
        from List.length_map _ _]
      rw [hTitles]
      rfl

/-! ## Claim C9: column classification as a partition -/

/-- The column names a table declares, read from the document itself: the
keys of a dict-shaped `columns` value, the `name` (or `column`) field of the
mapping entries of a list-shaped value, and the bare strings themselves. -/
def declaredColumnNames (cv : ColumnsVal) : List String :=
  match cv with
  | ColumnsVal.dict entries => entries.map (fun e => e.1)
  | ColumnsVal.list entries =>
      entries.filterMap (fun e =>
        match e with
        | ColVal.dict meta =>
            match meta.name with
            | some n => some n
            | none => meta.column
        | ColVal.str s => some s
        | ColVal.other => none)
  | ColumnsVal.other => []

/-- The `(name, lower-cased dtype)` pairs of the column entries the
classification loop accepts: dict-shape entries whose metadata is a mapping,
and list-shape entries that are mappings with a truthy extracted name or bare
strings (whose dtype is vacuously `""`). -/
def acceptedColumns (cv : ColumnsVal) : List (String × String) :=
  match cv with
  | ColumnsVal.dict entries =>
      entries.filterMap (fun e =>
        match e.2 with
        | ColVal.dict meta => some (e.1, columnDtypeLower meta)
        | ColVal.str _ => none
        | ColVal.other => none)
  | ColumnsVal.list entries =>
      entries.filterMap (fun e =>
        match e with
        | ColVal.dict meta =>
            match pyOrStr meta.name meta.column with
            | some n =>
                if n = "" then none else some (n, columnDtypeLower meta)
            | none => none
        | ColVal.str s => some (s, "")
        | ColVal.other => none)
  | ColumnsVal.other => []

/-- A list-shaped `columns` value declaring one column whose `name` is the
empty string and whose dtype is `int64`. -/
def c9ColumnsVal : ColumnsVal :=
  ColumnsVal.list
    [ColVal.dict
      { name := some "", column := none, type := some "int64",
        data_type := none }]

/-- Counterexample to C9: the table declares a column (named `""`, dtype
`"int64"` — a member of the numeric vocabulary), yet the classification
skips it (`if not name: continue`), so the column lands in neither the
numeric nor the categorical list: the partition is not over every declared
column. -/
theorem classification_skips_column_counterexample :
    declaredColumnNames c9ColumnsVal = [""] ∧
    NUMERIC_TYPES.contains "int64" = true ∧
    classify_columns c9ColumnsVal = ([], []) :=
  ⟨rfl, rfl, rfl⟩

/-- C9 amended: the classification is a strict partition of the column
entries the loop accepts (dict-shape entries with mapping metadata;
list-shape entries that are bare strings or mappings whose extracted name is
truthy): such a column is numeric iff its lower-cased declared dtype exactly
matches the closed numeric vocabulary, and categorical otherwise — never
both, never neither.  Malformed or falsy-named entries are skipped and
appear in neither list. -/
theorem classify_columns_partitions_accepted (cv : ColumnsVal) :
    classify_columns cv =
      (((acceptedColumns cv).filter
          (fun e => NUMERIC_TYPES.contains e.2)).map (fun e => e.1),
        ((acceptedColumns cv).filter
          (fun e => !NUMERIC_TYPES.contains e.2)).map (fun e => e.1)) := by
  cases cv with
  | dict entries =>
      show classifyDictCols entries = _
      induction entries with
      | nil => rfl
      | cons e rest ih =>
          simp only [acceptedColumns] at ih ⊢
          obtain ⟨n, v⟩ := e
          cases v with
          | dict meta =>
              by_cases hn : columnDtypeLower meta ∈ NUMERIC_TYPES <;>
                simp [classifyDictCols, List.filterMap_cons, hn, ih]
          | str s => simpa [classifyDictCols] using ih
          | other => simpa [classifyDictCols] using ih
  | list entries =>
      show classifyListCols entries = _
      induction entries with
      | nil => rfl
      | cons e rest ih =>
          simp only [acceptedColumns] at ih ⊢
          cases e with
          | dict meta =>
              cases hname : pyOrStr meta.name meta.column with
              | none => simpa [classifyListCols, hname] using ih
              | some n =>
                  by_cases hempty : n = ""
                  · simpa [classifyListCols, hname, hempty] using ih
                  · by_cases hn : columnDtypeLower meta ∈ NUMERIC_TYPES <;>
                      simp [classifyListCols, List.filterMap_cons, hname,
                        hempty, hn, ih]
          | str s =>
              have h0 : ¬ (("" : String) ∈ NUMERIC_TYPES) := by decide
              simp [classifyListCols, List.filterMap_cons, h0, ih]
          | other => simpa [classifyListCols] using ih
  | other => rfl

/-! ## Claim C8: visualisation suggestions per table -/

/-- The suggestion the amended claim predicts for a selected table, written
independently of the loop: no suggestion without a numeric column; otherwise
exactly one, whose metric is the first numeric column and whose dimension is
the first categorical column (or `None`); the chart type is `"bar"` only when
that first categorical column is a non-empty string, and `"indicator"`
otherwise — including when a categorical column exists but is named `""`. -/
def suggestionForTable (t : TableEntry) : Option Suggestion :=
  match t.numeric_columns with
  | [] => none
  | metric :: _ =>
      match t.categorical_columns with
      | [] =>
          some
            { table := t.table, chart_type := "indicator", metric := metric,
              dimension := none,
              description := "Track " ++ metric ++ " over time or as a KPI" }
      | d :: _ =>
          if d = "" then
            some
              { table := t.table, chart_type := "indicator", metric := metric,
                dimension := some d,
                description := "Track " ++ metric ++ " over time or as a KPI" }
          else
            some
              { table := t.table, chart_type := "bar", metric := metric,
                dimension := some d,
                description := "Aggregate " ++ metric ++ " by " ++ d }

/-- The loop body and the amended claim's prediction agree on every table. -/
theorem mkSuggestion_eq_suggestionForTable (t : TableEntry) :
    mkSuggestion t = suggestionForTable t := by
  unfold mkSuggestion suggestionForTable
  cases t.numeric_columns with
  | nil => rfl
  | cons metric ms =>
      cases t.categorical_columns with
      | nil => rfl
      | cons d ds =>
          by_cases hd : d = "" <;>
            simp [pyTruthyS, hd]

/-- C8 amended: the visualisations of every dashboard plan are exactly one
suggestion per selected table with at least one numeric column — metric the
first numeric column, dimension the first categorical column or `None` — and
the chart type is `"bar"` iff the first categorical column is a non-empty
string (a table whose first categorical column is named `""` gets
`"indicator"` despite having a categorical column); tables without numeric
columns yield no suggestion. -/
theorem plan_visualisations_characterisation
    (files : List (String × DatasetMeta)) (objective : String)
    (question : Option String) (focus_tables : Option (List String)) :
    (create_dashboard_plan files objective question focus_tables).visualisations =
      (create_dashboard_plan files objective question
          focus_tables).recommended_tables.filterMap suggestionForTable ∧
    (∀ t : TableEntry,
      (suggestionForTable t).isSome = !t.numeric_columns.isEmpty) := by
  constructor
  · show (create_dashboard_plan files objective question
        focus_tables).recommended_tables.filterMap mkSuggestion = _
    exact List.filterMap_congr (fun t _ => mkSuggestion_eq_suggestionForTable t)
  · intro t
    unfold suggestionForTable
    cases t.numeric_columns with
    | nil => rfl
    | cons metric ms =>
        cases t.categorical_columns with
        | nil => rfl
        | cons d ds => by_cases hd : d = "" <;> simp [hd]

/-- The descriptor files of the C8 counterexample: one workforce dataset with
one table whose first (dict-shape) column is named `""` with dtype `string`
and whose second column `score` is numeric. -/
def c8Files : List (String × DatasetMeta) :=
  [("gt_wf",
    { description := none, summary := none,
      tables := TablesVal.dict
        [("wf_summary", TableVal.dict
          { table := none, table_id := none, name := none,
            description := none, summary := none,
            columns := ColumnsVal.dict
              [("", ColVal.dict
                { name := none, column := none, type := some "string",
                  data_type := none }),
                ("score", ColVal.dict
                  { name := none, column := none, type := some "float64",
                    data_type := none })] })] })]

/-- The dashboard plan of the C8 counterexample. -/
def c8Plan : DashboardPlan :=
  create_dashboard_plan c8Files "attrition overview" none none

/-- Counterexample to C8: the selected table has a categorical column (named
`""`) and a numeric column, so the claim predicts a `"bar"` suggestion with
the dimension present; the code's truthiness test on the dimension instead
produces `"indicator"`. -/
theorem suggestion_empty_dimension_counterexample :
    c8Plan.recommended_tables.map (fun t => t.categorical_columns) = [[""]] ∧
    c8Plan.recommended_tables.map (fun t => t.numeric_columns) = [["score"]] ∧
    c8Plan.visualisations.map (fun s => s.chart_type) = ["indicator"] :=
  ⟨rfl, rfl, rfl⟩
